import Mathlib

/-!
Shallow embedding of the Databricks Dash demo app
(`src/utils/sql_client.py`, `src/utils/components.py`, `src/pages/catalog.py`,
`src/pages/sql_explorer.py`, `src/pages/identity.py`, `src/pages/sales.py`,
`src/pages/taxi.py`) together with proofs about the embedded definitions.

Python conventions used throughout the embedding:
* an optional / possibly-falsy string is `Option String` or a `String` where
  `""` plays the role of a falsy value, mirroring Python truthiness tests;
* a Python function that may raise is `Except E A`; a caught exception is a
  `.error` branch handled where the corresponding `try`/`except` sits;
* `functools.lru_cache(maxsize=1)` is modelled explicitly as a single
  `(key, value)` slot (`Lru1`), following its documented behaviour: return
  values (including `None`) are cached, raised exceptions are not cached,
  and an entry for a different key is evicted when a new result is inserted.
-/

deriving instance DecidableEq for Except

namespace DashSpec

/-- Python truthiness of an optional string: `None` and `""` are falsy. -/
def pyTruthyStr : Option String → Bool
  | none => false
  | some s => s ≠ ""

/-- Python `a or b` for strings: return `a` unless it is falsy, else `b`.
Used for the `or "n/a"` defaults in the pages. -/
def pyOrStr (a b : String) : String :=
  if a = "" then b else a

/-- Python `n or d` for an optional number (`max_rows or 500` in
`src/pages/sql_explorer.py`): `None` and `0` are falsy. -/
def pyOrNat (n : Option Nat) (d : Nat) : Nat :=
  match n with
  | none => d
  | some m => if m = 0 then d else m

/-! ### functools.lru_cache(maxsize=1) -/

/-- The single slot of `functools.lru_cache(maxsize=1)`:
at most one `(key, value)` pair is retained. -/
def Lru1 (K V : Type) := Option (K × V)

instance (K V : Type) [DecidableEq K] [DecidableEq V] : DecidableEq (Lru1 K V) := by
  unfold Lru1; infer_instance

/-- One call through `lru_cache(maxsize=1)` wrapping a non-raising body.
On a hit for the stored key the stored value is returned and the body does
not run; otherwise the body runs and its result is stored, evicting any
entry held for a different key.  Returns
`(result, cache afterwards, whether the body ran)`. -/
def lru1Call {K V : Type} [DecidableEq K] (cache : Lru1 K V) (body : K → V)
    (k : K) : V × Lru1 K V × Bool :=
  match cache with
  | some (k', v) =>
      if k = k' then (v, some (k', v), false)
      else (body k, some (k, body k), true)
  | none => (body k, some (k, body k), true)

/-- One call through `lru_cache(maxsize=1)` wrapping a body that may raise.
A raised exception propagates to the caller and nothing is inserted into
the cache (documented `functools` behaviour: errors are not cached). -/
def lru1CallE {K V E : Type} [DecidableEq K] (cache : Lru1 K V)
    (body : K → Except E V) (k : K) : Except E V × Lru1 K V × Bool :=
  match cache with
  | some (k', v) =>
      if k = k' then (.ok v, some (k', v), false)
      else
        match body k with
        | .ok v' => (.ok v', some (k, v'), true)
        | .error e => (.error e, some (k', v), true)
  | none =>
      match body k with
      | .ok v' => (.ok v', some (k, v'), true)
      | .error e => (.error e, none, true)

/-- A sequence of calls through `lru_cache(maxsize=1)`.  Each actual
execution of the body is stamped with a global run counter, so a recomputed
handle is observably a fresh object (as a fresh connection object would be).
Returns `(results in call order, final cache, total number of body runs)`. -/
def lru1Trace {K V : Type} [DecidableEq K] (body : K → Nat → V) :
    List K → Lru1 K V → Nat → List V × Lru1 K V × Nat
  | [], cache, runs => ([], cache, runs)
  | k :: ks, some (k', v), runs =>
      if k = k' then
        let r := lru1Trace body ks (some (k', v)) runs
        (v :: r.1, r.2)
      else
        let r := lru1Trace body ks (some (k, body k runs)) (runs + 1)
        (body k runs :: r.1, r.2)
  | k :: ks, none, runs =>
      let r := lru1Trace body ks (some (k, body k runs)) (runs + 1)
      (body k runs :: r.1, r.2)

/-! ### src/utils/sql_client.py -/

/-- One entry of `w.warehouses.list()` as read by
`get_warehouse_http_path`: its id, the `enable_serverless_compute` flag
(`getattr(wh, "enable_serverless_compute", False)`, so a missing attribute
is `false`), and `wh.state.value` (`none` when `wh.state` is `None`). -/
structure Warehouse where
  id : String
  enableServerlessCompute : Bool
  state : Option String
deriving DecidableEq, Repr

/-- The environment a call to `get_warehouse_http_path` runs in:
the `DATABRICKS_WAREHOUSE_ID` environment variable, the outcome of the
`WorkspaceClient()` constructor, and the outcome of `w.warehouses.list()`
(each of the last two may raise, which the function's blanket
`except Exception: pass` turns into a `None` return). -/
structure DiscoveryEnv where
  warehouseIdEnv : Option String
  clientInit : Except Unit Unit
  listing : Except Unit (List Warehouse)
deriving DecidableEq

/-- Body of `get_warehouse_http_path` (src/utils/sql_client.py lines 13-32),
uncached.  Everything from `w = WorkspaceClient()` to the final `return`
sits inside `try: ... except Exception: pass`, after which `None` is
returned; the env-var override is consulted only after client construction
succeeded. -/
def get_warehouse_http_path_run (env : DiscoveryEnv) : Option String :=
  match env.clientInit with
  | .error _ => none
  | .ok _ =>
    if pyTruthyStr env.warehouseIdEnv then
      some ("/sql/1.0/warehouses/" ++ env.warehouseIdEnv.getD "")
    else
      match env.listing with
      | .error _ => none
      | .ok warehouses =>
        match warehouses.filter (fun wh => wh.enableServerlessCompute) with
        | wh :: _ => some ("/sql/1.0/warehouses/" ++ wh.id)
        | [] =>
          match warehouses.filter (fun wh => wh.state = some "RUNNING") with
          | wh :: _ => some ("/sql/1.0/warehouses/" ++ wh.id)
          | [] =>
            match warehouses with
            | wh :: _ => some ("/sql/1.0/warehouses/" ++ wh.id)
            | [] => none

/-- `get_warehouse_http_path` as deployed: the body above behind
`lru_cache(maxsize=1)` on a zero-argument function (key `Unit`).  Since the
body never raises (it swallows exceptions and returns `None`), its return
value — `None` included — is always inserted into the cache. -/
def get_warehouse_http_path_cached (cache : Lru1 Unit (Option String))
    (env : DiscoveryEnv) : Option String × Lru1 Unit (Option String) × Bool :=
  lru1Call cache (fun _ => get_warehouse_http_path_run env) ()

/-- `get_connection(http_path)` behind `lru_cache(maxsize=1)`
(src/utils/sql_client.py lines 35-42).  The body `sql.connect(...)` may
raise; `connect` abstracts that outcome per call attempt. -/
def get_connection_cached {Conn : Type} (cache : Lru1 String Conn)
    (connect : String → Except String Conn) (http_path : String) :
    Except String Conn × Lru1 String Conn × Bool :=
  lru1CallE cache connect http_path

/-- The warehouse-resolution step of `run_query`
(src/utils/sql_client.py lines 45-49): `if not http_path: raise
RuntimeError("No SQL warehouse available.")`, otherwise the path is used. -/
def run_query_resolve (http_path : Option String) : Except String String :=
  if pyTruthyStr http_path then .ok (http_path.getD "")
  else .error "No SQL warehouse available."

/-! ### Concurrent first calls through lru_cache

An interleaving model of two threads performing a first call to a
zero-argument `lru_cache(maxsize=1)` function (such as
`get_warehouse_http_path`).  It follows CPython's cache wrapper, whose
documentation states that the wrapped function may be called more than once
when several threads miss concurrently: the cache lookup and the insertion
are each atomic, but the body runs between them without the lock; a thread
that finds the slot already filled at insertion time keeps its own computed
result and does not overwrite the slot. -/

/-- Program counter of one thread inside a call to the cached getter. -/
inductive TPc where
  | start
  | compute
  | store
  | done
deriving DecidableEq, Repr

/-- One thread: where it is, the value its own body run produced
(meaningful from `store` on), and the value the call returned to it. -/
structure Thread where
  pc : TPc
  localv : Nat
  result : Option Nat
deriving DecidableEq, Repr

/-- Global state of the race: two threads, the cache slot, and how many
times the underlying body has run.  Each body run yields a fresh handle,
numbered by the run counter at the time it ran. -/
structure RaceSt where
  t1 : Thread
  t2 : Thread
  cache : Option Nat
  runs : Nat
deriving DecidableEq, Repr

/-- One atomic step of a thread. `start`: atomically read the cache — a hit
returns the cached value, a miss commits to computing. `compute`: run the
body (fresh handle stamped with the run counter). `store`: atomically
insert the computed value only if the slot is still empty, and return the
thread's own computed value either way. -/
def threadStep (cache : Option Nat) (runs : Nat) (t : Thread) :
    Thread × Option Nat × Nat :=
  match t.pc with
  | .start =>
      match cache with
      | some v => ({ t with pc := .done, result := some v }, cache, runs)
      | none => ({ t with pc := .compute }, cache, runs)
  | .compute =>
      ({ t with pc := .store, localv := runs }, cache, runs + 1)
  | .store =>
      ({ t with pc := .done, result := some t.localv },
        (match cache with | none => some t.localv | some v => some v), runs)
  | .done => (t, cache, runs)

/-- Scheduler step: `true` steps thread 1, `false` steps thread 2. -/
def raceStep (s : RaceSt) (tid : Bool) : RaceSt :=
  if tid then
    let r := threadStep s.cache s.runs s.t1
    { s with t1 := r.1, cache := r.2.1, runs := r.2.2 }
  else
    let r := threadStep s.cache s.runs s.t2
    { s with t2 := r.1, cache := r.2.1, runs := r.2.2 }

/-- Run a schedule (a list of thread choices). -/
def raceExec (sched : List Bool) (s : RaceSt) : RaceSt :=
  sched.foldl raceStep s

/-- Both threads about to make the first call, cache empty, no runs yet. -/
def raceInit : RaceSt :=
  ⟨⟨.start, 0, none⟩, ⟨.start, 0, none⟩, none, 0⟩

/-! ### UI fragments (dash / dash_bootstrap_components output values) -/

/-- Axis and chart-type controls of the auto-visualization card built in
`run_sql` (src/pages/sql_explorer.py lines 160-176): the option lists and
initial values of the X-axis, Y-axis and chart-type dropdowns. -/
structure VizControls where
  xOptions : List String
  yOptions : List String
  xValue : String
  yValue : String
  chartOptions : List String
deriving DecidableEq, Repr

/-- Rendered output fragments of the app's callbacks, as far as the claims
need to distinguish them.  `alert text color` stands for
`dbc.Alert(text, color=color)`; `listGroup` for the clickable
`dbc.ListGroup` of catalog/schema/table names; `detailPane` for the table
detail column; `sqlResults` for the success output of `run_sql`;
the remaining constructors cover the identity page. -/
inductive Frag where
  | alert (text : String) (color : String)
  | listGroup (items : List String)
  | detailPane (meta : List (String × String)) (commentAlert : Option String)
      (schemaTable : Option (List (String × String × String))) (sqlRef : String)
  | sqlResults (rowsReturned : Nat) (colNames : List String)
      (viz : Option VizControls)
  | kpiRow (email username ip : String)
  | hr
  | header (title : String)
  | accountDetails (idStr displayName : String) (active : Bool)
  | nameRow (givenName familyName : String)
  | badges (names : List String)
  | para (label value : String)
  | rawHeaders (hdrs : List (String × String))
  | chart (figure : String)
deriving DecidableEq, Repr

/-- `error_alert` from src/utils/components.py lines 46-47:
`dbc.Alert(f"⚠️ {msg}", color="danger")`. -/
def error_alert (msg : String) : Frag :=
  .alert ("⚠️ " ++ msg) "danger"

/-! ### src/pages/catalog.py -/

/-- One column entry of `t.columns` as read by `show_detail`. -/
structure TableColumn where
  name : String
  typeText : String
  typeName : String
  nullable : Bool
deriving DecidableEq, Repr

/-- The fields of `w.tables.get(full_name=...)` read by `show_detail`.
Falsy string fields (`owner`, `comment`, `type_text`) are `String` with
`""` for missing; enum-valued optional fields are `Option String`. -/
structure TableInfo where
  tableType : Option String
  owner : String
  dataSourceFormat : Option String
  comment : String
  columns : List TableColumn
deriving DecidableEq, Repr

/-- The Unity Catalog service behind `_client()` as used by the four
catalog-page callbacks.  Each operation may raise (including a failing
`WorkspaceClient()` construction inside `_client()`, which each callback's
`try` also covers); listings return raw name fields, where `""` stands for
a falsy `name` filtered out by the `if x.name` comprehension guards. -/
structure CatalogSvc where
  listCatalogs : Except String (List String)
  listSchemas : String → Except String (List String)
  listTables : String → String → Except String (List String)
  getTable : String → Except String TableInfo

/-- `load_catalogs` (src/pages/catalog.py lines 61-75): list catalog names,
move `"samples"` to the front when present, render a list group; any
exception is rendered via `error_alert(str(e))`. -/
def load_catalogs (svc : CatalogSvc) : Frag :=
  match svc.listCatalogs with
  | .error e => error_alert e
  | .ok raw =>
      let catalogs := raw.filter (fun c => c ≠ "")
      let catalogs :=
        if "samples" ∈ catalogs then
          "samples" :: catalogs.filter (fun c => c ≠ "samples")
        else catalogs
      .listGroup catalogs

/-- `load_schemas` (src/pages/catalog.py lines 79-102).  Its only Input is
the pattern-matched catalog items, so `dash.callback_context.triggered_id`
is either absent or a `cat-item` dict, modelled as `Option String` carrying
the clicked catalog's index; `n_clicks` is the list of click counters
(`None` mapped to `0`, matching Python truthiness in `any(n_clicks)`).
`none` in an output position models `dash.no_update`. -/
def load_schemas (svc : CatalogSvc) (trigCat : Option String)
    (n_clicks : List Nat) : Option Frag × Option String :=
  match trigCat with
  | none => (none, none)
  | some cat =>
      if n_clicks.all (fun n => n = 0) then (none, none)
      else
        match svc.listSchemas cat with
        | .ok raw => (some (.listGroup (raw.filter (fun s => s ≠ ""))), some cat)
        | .error e => (some (error_alert e), none)

/-- Triggers that can fire `load_tables`: a schema item click or the
`store-catalog` Input changing. -/
inductive TablesTrig where
  | schemaItem (index : String)
  | storeCatalog
deriving DecidableEq, Repr

/-- `load_tables` (src/pages/catalog.py lines 106-133): bail out with
`no_update` when nothing triggered, when the catalog slot is falsy, or when
the triggering input is not a `schema-item` dict; otherwise list tables of
the selected schema and publish the schema slot.  Errors render in place. -/
def load_tables (svc : CatalogSvc) (trig : Option TablesTrig)
    (catalog : Option String) : Option Frag × Option String :=
  match trig with
  | none => (none, none)
  | some t =>
      if pyTruthyStr catalog then
        match t with
        | .storeCatalog => (none, none)
        | .schemaItem schema =>
            match svc.listTables (catalog.getD "") schema with
            | .ok raw =>
                (some (.listGroup (raw.filter (fun s => s ≠ ""))), some schema)
            | .error e => (some (error_alert e), none)
      else (none, none)

/-- Triggers that can fire `show_detail`: a table item click, or one of the
`store-catalog` / `store-schema` Inputs changing. -/
inductive DetailTrig where
  | tableItem (index : String)
  | storeCatalog
  | storeSchema
deriving DecidableEq, Repr

/-- The detail column built by `show_detail` for a fetched table
(src/pages/catalog.py lines 156-189): metadata with `"n/a"` defaults, an
optional comment alert, the column table (name, `type_text or
str(type_name)`, nullable mark), and the SQL reference text. -/
def show_detail_render (t : TableInfo) (catalog schema table : String) : Frag :=
  let meta := [("Type", t.tableType.getD "n/a"),
               ("Owner", pyOrStr t.owner "n/a"),
               ("Format", t.dataSourceFormat.getD "n/a")]
  let comm := if t.comment ≠ "" then some t.comment else none
  let cols :=
    if t.columns ≠ [] then
      some (t.columns.map fun c =>
        (c.name, pyOrStr c.typeText c.typeName, if c.nullable then "✅" else "❌"))
    else none
  let colNames :=
    if t.columns ≠ [] then String.intercalate ", " (t.columns.map (fun c => c.name))
    else "*"
  let sqlRef := "SELECT " ++ colNames ++ "\nFROM " ++ catalog ++ "." ++ schema
      ++ "." ++ table ++ "\nLIMIT 100"
  .detailPane meta comm cols sqlRef

/-- `show_detail` (src/pages/catalog.py lines 137-191): `no_update` unless
a `table-item` click triggered it and both ancestor slots are truthy;
otherwise fetch the table and render the detail pane, errors in place. -/
def show_detail (svc : CatalogSvc) (trig : Option DetailTrig)
    (catalog schema : Option String) : Option Frag :=
  match trig with
  | none => none
  | some t =>
      if pyTruthyStr catalog ∧ pyTruthyStr schema then
        match t with
        | .storeCatalog => none
        | .storeSchema => none
        | .tableItem table =>
            let cat := catalog.getD ""
            let sch := schema.getD ""
            match svc.getTable (cat ++ "." ++ sch ++ "." ++ table) with
            | .ok info => some (show_detail_render info cat sch table)
            | .error e => some (error_alert e)
      else none

/-- Rendered state of the catalog page: the four view columns and the three
hidden stores declared in `layout()`.  `store-table` is declared but no
callback ever writes it. -/
structure CatalogPage where
  catList : Frag
  schemaList : Frag
  tableList : Frag
  detail : Frag
  storeCatalog : Option String
  storeSchema : Option String
  storeTable : Option String
deriving DecidableEq, Repr

/-- Apply a callback's children output: `none` is `dash.no_update`. -/
def applyFrag (old : Frag) (out : Option Frag) : Frag :=
  out.getD old

/-- Apply a callback's store output: `none` is `dash.no_update`. -/
def applyStore (old : Option String) (out : Option String) : Option String :=
  match out with
  | none => old
  | some v => some v

/-- User actions on the catalog page. -/
inductive CatEvent where
  | clickCatalog (c : String)
  | clickSchema (s : String)
  | clickTable (t : String)
deriving DecidableEq, Repr

/-- Dash's dispatch of one user action on the catalog page: run the
callback whose declared click Input fired, apply its outputs, and — when a
store that other callbacks declare as an Input received a value — fire
those downstream callbacks in the same cascade with the store as their
triggering input. -/
def catDispatch (svc : CatalogSvc) (st : CatalogPage) : CatEvent → CatalogPage
  | .clickCatalog c =>
      let out := load_schemas svc (some c) [1]
      let st1 := { st with schemaList := applyFrag st.schemaList out.1,
                           storeCatalog := applyStore st.storeCatalog out.2 }
      match out.2 with
      | none => st1
      | some _ =>
          let out2 := load_tables svc (some .storeCatalog) st1.storeCatalog
          let st2 := { st1 with tableList := applyFrag st1.tableList out2.1,
                                storeSchema := applyStore st1.storeSchema out2.2 }
          let out3 := show_detail svc (some .storeCatalog) st2.storeCatalog
              st2.storeSchema
          { st2 with detail := applyFrag st2.detail out3 }
  | .clickSchema s =>
      let out := load_tables svc (some (.schemaItem s)) st.storeCatalog
      let st1 := { st with tableList := applyFrag st.tableList out.1,
                           storeSchema := applyStore st.storeSchema out.2 }
      match out.2 with
      | none => st1
      | some _ =>
          let out2 := show_detail svc (some .storeSchema) st1.storeCatalog
              st1.storeSchema
          { st1 with detail := applyFrag st1.detail out2 }
  | .clickTable t =>
      let out := show_detail svc (some (.tableItem t)) st.storeCatalog
          st.storeSchema
      { st with detail := applyFrag st.detail out }

/-! ### src/pages/sql_explorer.py -/

/-- Python `str.strip()` on the query text: drop whitespace at both ends. -/
def pyStrip (s : String) : String :=
  ⟨((s.data.dropWhile Char.isWhitespace).reverse.dropWhile
      Char.isWhitespace).reverse⟩

/-- Python `str.rstrip(";")`: drop every trailing semicolon. -/
def rstripSemis (s : String) : String :=
  ⟨(s.data.reverse.dropWhile (fun c => c = ';')).reverse⟩

/-- Lower-casing used for the case-insensitive substring heuristics
(`safe.lower()`, `k.lower()`). -/
def pyLower (s : String) : String := ⟨s.data.map Char.toLower⟩

/-- Python substring test `needle in hay` on character lists. -/
def subOccurs (needle : List Char) : List Char → Bool
  | [] => needle.isEmpty
  | c :: rest => needle.isPrefixOf (c :: rest) || subOccurs needle rest

/-- Python `needle in key.lower()` for an already-lower-case needle. -/
def pyInLower (needle key : String) : Bool :=
  subOccurs needle.data (pyLower key).data

/-- The heuristic limit check of `run_sql`
(src/pages/sql_explorer.py line 125): `"limit" in safe.lower()`. -/
def containsLimit (s : String) : Bool := pyInLower "limit" s

/-- The statement `run_sql` actually executes
(src/pages/sql_explorer.py lines 121-126): `none` when the submitted text
is empty or whitespace-only (the callback then shows a prompt instead of
executing anything); otherwise the text stripped of surrounding whitespace
and trailing semicolons, wrapped in an outer `SELECT ... LIMIT` only when
the heuristic finds no `limit` substring.  A missing/zero max-rows value
falls back to `500` via Python `max_rows or 500`. -/
def run_sql_statement (query : String) (maxRows : Option Nat) : Option String :=
  if pyStrip query = "" then none
  else
    let safe := rstripSemis (pyStrip query)
    if containsLimit safe then some safe
    else some ("SELECT * FROM (" ++ safe ++ ") _q LIMIT "
        ++ toString (pyOrNat maxRows 500))

/-- SQL semantics of an outer `LIMIT n`: the backend returns at most the
first `n` rows of the inner result. -/
def limitRows {Row : Type} (inner : List Row) (n : Nat) : List Row :=
  inner.take n

/-- Column dtypes of the result DataFrame as far as
`df.select_dtypes(include="number")` distinguishes them. -/
inductive Dtype where
  | int64
  | float64
  | object
  | boolean
  | datetime
deriving DecidableEq, Repr

/-- Numpy's `number` selector: integer and floating dtypes qualify;
object, bool and datetime columns do not. -/
def Dtype.isNumeric : Dtype → Bool
  | .int64 => true
  | .float64 => true
  | _ => false

/-- The result DataFrame as far as the explorer page reads it:
named, typed columns plus the row count `len(df)`. -/
structure DF where
  cols : List (String × Dtype)
  nrows : Nat
deriving DecidableEq, Repr

/-- `df.select_dtypes(include="number").columns.tolist()`
(src/pages/sql_explorer.py line 155). -/
def numeric_cols (df : DF) : List String :=
  (df.cols.filter (fun c => c.2.isNumeric)).map (fun c => c.1)

/-- `df.columns.tolist()` (src/pages/sql_explorer.py line 156). -/
def all_cols (df : DF) : List String :=
  df.cols.map (fun c => c.1)

/-- Options of the chart-type dropdown (src/pages/sql_explorer.py
lines 171-173). -/
def chartTypes : List String := ["Bar", "Line", "Scatter", "Area"]

/-- The auto-visualization card of `run_sql` (src/pages/sql_explorer.py
lines 158-176): built only when `numeric_cols` is non-empty and there are
at least two columns; X options are all columns (initial value the first
column), Y options are the numeric columns (initial value the first
numeric column). -/
def viz_section (df : DF) : Option VizControls :=
  if numeric_cols df ≠ [] ∧ 2 ≤ (all_cols df).length then
    some ⟨all_cols df, numeric_cols df, (all_cols df).headD "",
          (numeric_cols df).headD "", chartTypes⟩
  else none

/-- The `run_sql` callback (src/pages/sql_explorer.py lines 120-185),
with the warehouse backend abstracted as `execQ`.  Outputs are the
`sql-results` children and the `sql-data-store` data (the stored frame,
`none` on the guard and error paths where the code stores `None`). -/
def run_sql (execQ : String → Except String DF) (query : String)
    (maxRows : Option Nat) : Frag × Option DF :=
  match run_sql_statement query maxRows with
  | none => (.alert "Please enter a SQL query." "warning", none)
  | some safe =>
      match execQ safe with
      | .error e => (error_alert e, none)
      | .ok df => (.sqlResults df.nrows (all_cols df) (viz_section df), some df)

/-! ### src/pages/sales.py and src/pages/taxi.py -/

/-- The common body shape of every analytics callback: the whole
computation, remote query included, sits inside
`try: ... except Exception as e: return error_alert(str(e))`. -/
def guarded (body : Except String Frag) : Frag :=
  match body with
  | .ok f => f
  | .error e => error_alert e

/-- `_status_filter` (src/pages/sales.py lines 73-76). -/
def _status_filter (status : String) : String :=
  if status = "ALL" then ""
  else "AND o.o_orderstatus = \x27" ++ status ++ "\x27"

/-- `_where` (src/pages/taxi.py lines 59-62). -/
def _where (fare dist : Nat × Nat) : String :=
  "WHERE fare_amount BETWEEN " ++ toString fare.1 ++ " AND " ++ toString fare.2
    ++ "  AND trip_distance BETWEEN " ++ toString dist.1 ++ " AND "
    ++ toString dist.2 ++ "  AND trip_distance > 0 AND fare_amount > 0"

/-- Statement built by the sales `update_kpis` callback
(src/pages/sales.py lines 88-97; the insignificant indentation of the
triple-quoted literal is not reproduced). -/
def sales_kpi_sql (years : Nat × Nat) (status : String) : String :=
  "SELECT\nCOUNT(DISTINCT o.o_orderkey)  AS total_orders,\n"
    ++ "COUNT(DISTINCT o.o_custkey)   AS unique_customers,\n"
    ++ "ROUND(SUM(o.o_totalprice), 0) AS total_revenue,\n"
    ++ "ROUND(AVG(o.o_totalprice), 2) AS avg_order_value\n"
    ++ "FROM samples.tpch.orders o\nWHERE YEAR(o.o_orderdate) BETWEEN "
    ++ toString years.1 ++ " AND " ++ toString years.2 ++ "\n"
    ++ _status_filter status

/-- Sales `update_kpis` (src/pages/sales.py lines 85-110); the KPI-card
rendering of the fetched frame (which may itself raise, e.g. `df.iloc[0]`
on an empty frame) is the `render` collaborator. -/
def sales_update_kpis (execQ : String → Except String DF)
    (render : DF → Except String Frag) (years : Nat × Nat) (status : String) :
    Frag :=
  guarded ((execQ (sales_kpi_sql years status)).bind render)

/-- Statement built by `update_trend` (src/pages/sales.py lines 122-129). -/
def sales_trend_sql (years : Nat × Nat) (status : String) : String :=
  "SELECT DATE_TRUNC(\x27month\x27, o.o_orderdate) AS month,\n"
    ++ "ROUND(SUM(o.o_totalprice), 0)      AS revenue\n"
    ++ "FROM samples.tpch.orders o\nWHERE YEAR(o.o_orderdate) BETWEEN "
    ++ toString years.1 ++ " AND " ++ toString years.2 ++ "\n"
    ++ _status_filter status ++ "\nGROUP BY 1 ORDER BY 1"

/-- Sales `update_trend` (src/pages/sales.py lines 113-138). -/
def sales_update_trend (execQ : String → Except String DF)
    (render : DF → Except String Frag) (years : Nat × Nat) (status : String) :
    Frag :=
  guarded ((execQ (sales_trend_sql years status)).bind render)

/-- Statement built by `update_region` (src/pages/sales.py lines 150-160). -/
def sales_region_sql (years : Nat × Nat) (status : String) : String :=
  "SELECT r.r_name AS region, n.n_name AS nation,\n"
    ++ "ROUND(SUM(o.o_totalprice), 0) AS revenue\n"
    ++ "FROM samples.tpch.orders o\n"
    ++ "JOIN samples.tpch.customer c ON o.o_custkey   = c.c_custkey\n"
    ++ "JOIN samples.tpch.nation   n ON c.c_nationkey = n.n_nationkey\n"
    ++ "JOIN samples.tpch.region   r ON n.n_regionkey = r.r_regionkey\n"
    ++ "WHERE YEAR(o.o_orderdate) BETWEEN "
    ++ toString years.1 ++ " AND " ++ toString years.2 ++ "\n"
    ++ _status_filter status ++ "\nGROUP BY 1, 2 ORDER BY 1, 3 DESC"

/-- Sales `update_region` (src/pages/sales.py lines 141-177). -/
def sales_update_region (execQ : String → Except String DF)
    (render : DF → Except String Frag) (years : Nat × Nat) (status : String) :
    Frag :=
  guarded ((execQ (sales_region_sql years status)).bind render)

/-- Statement built by `update_customers` (src/pages/sales.py
lines 189-200). -/
def sales_customers_sql (years : Nat × Nat) (status : String) (topn : Nat) :
    String :=
  "SELECT c.c_name        AS customer,\n"
    ++ "c.c_mktsegment  AS segment,\n"
    ++ "COUNT(o.o_orderkey)           AS orders,\n"
    ++ "ROUND(SUM(o.o_totalprice), 0) AS revenue,\n"
    ++ "ROUND(AVG(o.o_totalprice), 2) AS avg_order\n"
    ++ "FROM samples.tpch.orders o\n"
    ++ "JOIN samples.tpch.customer c ON o.o_custkey = c.c_custkey\n"
    ++ "WHERE YEAR(o.o_orderdate) BETWEEN "
    ++ toString years.1 ++ " AND " ++ toString years.2 ++ "\n"
    ++ _status_filter status ++ "\nGROUP BY 1, 2 ORDER BY 4 DESC LIMIT "
    ++ toString topn

/-- Sales `update_customers` (src/pages/sales.py lines 180-220). -/
def sales_update_customers (execQ : String → Except String DF)
    (render : DF → Except String Frag) (years : Nat × Nat) (status : String)
    (topn : Nat) : Frag :=
  guarded ((execQ (sales_customers_sql years status topn)).bind render)

/-- Taxi `update_hourly` statement (src/pages/taxi.py lines 121-127). -/
def taxi_hourly_sql (fare dist : Nat × Nat) : String :=
  "SELECT HOUR(tpep_pickup_datetime)      AS hour_of_day,\n"
    ++ "COUNT(*)                        AS trips,\n"
    ++ "ROUND(AVG(fare_amount), 2)      AS avg_fare\n"
    ++ "FROM samples.nyctaxi.trips " ++ _where fare dist
    ++ "\nGROUP BY 1 ORDER BY 1"

/-- Taxi `update_hourly` (src/pages/taxi.py lines 118-140). -/
def taxi_update_hourly (execQ : String → Except String DF)
    (render : DF → Except String Frag) (fare dist : Nat × Nat) : Frag :=
  guarded ((execQ (taxi_hourly_sql fare dist)).bind render)

/-- Taxi `update_scatter` statement (src/pages/taxi.py lines 152-156),
with the `min(sample, 5000)` cap. -/
def taxi_scatter_sql (fare dist : Nat × Nat) (sample : Nat) : String :=
  "SELECT fare_amount, trip_distance\n"
    ++ "FROM samples.nyctaxi.trips " ++ _where fare dist
    ++ "\nORDER BY RAND() LIMIT " ++ toString (min sample 5000)

/-- Taxi `update_scatter` (src/pages/taxi.py lines 149-163). -/
def taxi_update_scatter (execQ : String → Except String DF)
    (render : DF → Except String Frag) (fare dist : Nat × Nat) (sample : Nat) :
    Frag :=
  guarded ((execQ (taxi_scatter_sql fare dist sample)).bind render)

/-- Taxi `update_kpis` statement (src/pages/taxi.py lines 73-79). -/
def taxi_kpi_sql (fare dist : Nat × Nat) : String :=
  "SELECT COUNT(*) AS total_trips,\n"
    ++ "ROUND(AVG(fare_amount), 2)  AS avg_fare,\n"
    ++ "ROUND(AVG(trip_distance), 2) AS avg_distance,\n"
    ++ "ROUND(AVG(fare_amount / NULLIF(trip_distance, 0)), 2) AS avg_fare_per_mile\n"
    ++ "FROM samples.nyctaxi.trips " ++ _where fare dist

/-- Taxi `update_kpis` (src/pages/taxi.py lines 70-88). -/
def taxi_update_kpis (execQ : String → Except String DF)
    (render : DF → Except String Frag) (fare dist : Nat × Nat) : Frag :=
  guarded ((execQ (taxi_kpi_sql fare dist)).bind render)

/-- Taxi `update_distributions` statement (src/pages/taxi.py line 100). -/
def taxi_dist_sql (fare dist : Nat × Nat) (sample : Nat) : String :=
  "SELECT fare_amount, trip_distance FROM samples.nyctaxi.trips "
    ++ _where fare dist ++ " LIMIT " ++ toString sample

/-- Taxi `update_distributions` (src/pages/taxi.py lines 97-110). -/
def taxi_update_distributions (execQ : String → Except String DF)
    (render : DF → Except String Frag) (fare dist : Nat × Nat) (sample : Nat) :
    Frag :=
  guarded ((execQ (taxi_dist_sql fare dist sample)).bind render)

/-! ### src/pages/identity.py -/

/-- Werkzeug's `request.headers.get(name, "")`: the first header whose
name matches case-insensitively, defaulting to `""`. -/
def pyHeaderGet (hdrs : List (String × String)) (name : String) : String :=
  match hdrs.find? (fun p => pyLower p.1 = pyLower name) with
  | some p => p.2
  | none => ""

/-- Insert one pair into a Python dict held as an association list in
insertion order: an existing key keeps its position and takes the new
value, a new key is appended. -/
def pyDictInsert (d : List (String × String)) (kv : String × String) :
    List (String × String) :=
  if d.any (fun p => p.1 = kv.1) then
    d.map (fun p => if p.1 = kv.1 then (p.1, kv.2) else p)
  else d ++ [kv]

/-- The dict built by a Python dict comprehension over a pair sequence. -/
def pyDict (l : List (String × String)) : List (String × String) :=
  l.foldl pyDictInsert []

/-- Python tuple comparison on `(key, value)` pairs, as `sorted` uses it. -/
def pairLe (a b : String × String) : Bool :=
  if a.1 < b.1 then true
  else if b.1 < a.1 then false
  else !(decide (b.2 < a.2))

/-- Insert into an already sorted list (model of Python `sorted`; only the
sortedness and the multiset of elements matter to the pages). -/
def insertSorted {α : Type} (le : α → α → Bool) (x : α) : List α → List α
  | [] => [x]
  | y :: ys => if le x y then x :: y :: ys else y :: insertSorted le x ys

/-- Sort a list by insertion (model of Python `sorted`). -/
def sortBy {α : Type} (le : α → α → Bool) : List α → List α
  | [] => []
  | x :: xs => insertSorted le x (sortBy le xs)

/-- The "safe subset" of raw headers rendered by `load_identity`
(src/pages/identity.py lines 107-116): drop every header whose name
contains `token` or `secret` case-insensitively, collapse into a dict,
and sort the items. -/
def safe_headers (hdrs : List (String × String)) : List (String × String) :=
  sortBy pairLe (pyDict (hdrs.filter
    (fun p => !(pyInLower "token" p.1) && !(pyInLower "secret" p.1))))

/-- `me.name` as read by `load_identity` (given/family name, `""` for a
falsy field shown as `n/a`). -/
structure MeName where
  givenName : String
  familyName : String
deriving DecidableEq, Repr

/-- The fields of `w.current_user.me()` read by `load_identity`.
`groups` holds the raw `g.display` values (`""` for a falsy display name,
filtered out by the comprehension guard); a `None`/empty group list both
take the falsy branch, so a plain list with `[]` models them. -/
structure MeInfo where
  idStr : String
  displayName : String
  active : Bool
  name : Option MeName
  groups : List String
deriving DecidableEq, Repr

/-- The delegated-token collaborators of the identity page:
`WorkspaceClient(token=...).current_user.me()` (its failure is rendered),
`w.get_workspace_id()` and `Config(token=...).host` (their failures are
silently skipped by their own inner `try`/`except`). -/
structure IdentitySvc where
  currentUser : String → Except String MeInfo
  workspaceId : String → Except Unit String
  configHost : String → Except Unit String

/-- Text of the warning alert shown when no delegated token is present
(src/pages/identity.py lines 97-104), children concatenated. -/
def oboWarningText : String :=
  "Basic info only. Enable On-behalf-of-user authentication in app "
    ++ "Settings → Authorization to see full account details and group "
    ++ "memberships."

/-- `load_identity` (src/pages/identity.py lines 25-122).  `reqHeaders` is
the request's header list, `none` when no request context exists (the
`RuntimeError` branches: all identity fields become `""` and the safe
header dict becomes empty). -/
def load_identity (svc : IdentitySvc)
    (reqHeaders : Option (List (String × String))) : List Frag :=
  let hget := fun n =>
    match reqHeaders with
    | some h => pyHeaderGet h n
    | none => ""
  let email := hget "X-Forwarded-Email"
  let username := hget "X-Forwarded-Preferred-Username"
  let _userId := hget "X-Forwarded-User"
  let ip := hget "X-Real-Ip"
  let token := hget "X-Forwarded-Access-Token"
  let base : List Frag :=
    [.kpiRow (pyOrStr email "n/a") (pyOrStr username "n/a") (pyOrStr ip "n/a"),
     .hr]
  let sections :=
    if token ≠ "" then
      match svc.currentUser token with
      | .error e =>
          base ++ [error_alert ("Could not fetch detailed user info: " ++ e)]
      | .ok me =>
          let detailRows : List Frag :=
            [.accountDetails me.idStr me.displayName me.active] ++
            (match me.name with
             | some n =>
                 [.nameRow (pyOrStr n.givenName "n/a")
                   (pyOrStr n.familyName "n/a")]
             | none => [])
          let groupSec : List Frag :=
            [.header "👥 Group Memberships"] ++
            (if me.groups ≠ [] then
               [.badges (me.groups.filter (fun g => g ≠ ""))]
             else [.alert "No group memberships returned." "info"])
          let wsSec : List Frag :=
            [.header "🏢 Workspace"] ++
            (match svc.workspaceId token with
             | .ok i => [.para "Workspace ID: " i]
             | .error _ => []) ++
            (match svc.configHost token with
             | .ok h => [.para "Host: " h]
             | .error _ => [])
          base ++ [.header "📋 Account Details"] ++ detailRows
            ++ groupSec ++ wsSec
    else
      base ++ [.alert oboWarningText "warning"]
  let safe :=
    match reqHeaders with
    | some h => safe_headers h
    | none => []
  sections ++ [.hr, .rawHeaders safe]

/-! ## Helper lemmas -/

theorem filter_of_find?_some {α : Type} (p : α → Bool) :
    ∀ {l : List α} {a : α}, l.find? p = some a → ∃ t, l.filter p = a :: t := by
  intro l
  induction l with
  | nil => intro a h; simp [List.find?] at h
  | cons x xs ih =>
    intro a h
    by_cases hp : p x
    · rw [List.find?_cons_of_pos _ hp] at h
      cases h
      exact ⟨xs.filter p, by rw [List.filter_cons_of_pos hp]⟩
    · rw [List.find?_cons_of_neg _ (by simpa using hp)] at h
      obtain ⟨t, ht⟩ := ih h
      exact ⟨t, by rw [List.filter_cons_of_neg (by simpa using hp), ht]⟩

theorem filter_of_find?_none {α : Type} (p : α → Bool) {l : List α}
    (h : l.find? p = none) : l.filter p = [] := by
  rw [List.filter_eq_nil_iff]
  intro a ha
  exact List.find?_eq_none.mp h a ha

theorem lru1Trace_hits {K V : Type} [DecidableEq K] (body : K → Nat → V)
    (k : K) (v : V) :
    ∀ (ks : List K) (runs : Nat), (∀ x ∈ ks, x = k) →
      lru1Trace body ks (some (k, v)) runs =
        (ks.map (fun _ => v), some (k, v), runs) := by
  intro ks
  induction ks with
  | nil => intro runs _; rfl
  | cons x xs ih =>
    intro runs hx
    have hxk : x = k := hx x (by simp)
    subst hxk
    simp [lru1Trace, ih runs (fun y hy => hx y (by simp [hy]))]

/-- Properties of one atomic thread step: a filled slot stays filled with
the same value, a stored value indexes an actual run, a thread about to
store holds the value of an actual run, and the run counter only grows. -/
theorem threadStep_props {cache : Option Nat} {runs : Nat} {t : Thread}
    (hc : ∀ v, cache = some v → v < runs)
    (ht : t.pc = .store → t.localv < runs) :
    (∀ v, (threadStep cache runs t).2.1 = some v →
        v < (threadStep cache runs t).2.2) ∧
    ((threadStep cache runs t).1.pc = .store →
        (threadStep cache runs t).1.localv < (threadStep cache runs t).2.2) ∧
    runs ≤ (threadStep cache runs t).2.2 ∧
    (∀ v, cache = some v → (threadStep cache runs t).2.1 = some v) := by
  cases hpc : t.pc
  case start =>
    cases hcache : cache <;>
      · simp only [threadStep, hpc, hcache]
        refine ⟨?_, ?_, ?_, ?_⟩ <;> simp_all
  case compute =>
    simp only [threadStep, hpc]
    refine ⟨?_, ?_, ?_, ?_⟩
    · intro v hv; exact Nat.lt_succ_of_lt (hc v hv)
    · intro _; exact Nat.lt_succ_self runs
    · exact Nat.le_succ runs
    · intro v hv; exact hv
  case store =>
    cases hcache : cache <;>
      · simp only [threadStep, hpc, hcache]
        refine ⟨?_, ?_, ?_, ?_⟩ <;> simp_all
  case done =>
    simp only [threadStep, hpc]
    exact ⟨hc, by simp [hpc], Nat.le_refl _, fun v hv => hv⟩

/-- Inductive invariant of the race model: a stored value indexes an
actual run, and a thread about to store holds a value of an actual run. -/
def RaceInv (s : RaceSt) : Prop :=
  (∀ v, s.cache = some v → v < s.runs) ∧
  (s.t1.pc = .store → s.t1.localv < s.runs) ∧
  (s.t2.pc = .store → s.t2.localv < s.runs)

theorem raceStep_inv {s : RaceSt} (tid : Bool) (h : RaceInv s) :
    RaceInv (raceStep s tid) ∧ s.runs ≤ (raceStep s tid).runs ∧
      (∀ v, s.cache = some v → (raceStep s tid).cache = some v) := by
  obtain ⟨hc, h1, h2⟩ := h
  cases tid
  · obtain ⟨p1, p2, p3, p4⟩ := threadStep_props hc h2
    exact ⟨⟨p1, fun hp => Nat.lt_of_lt_of_le (h1 hp) p3, p2⟩, p3, p4⟩
  · obtain ⟨p1, p2, p3, p4⟩ := threadStep_props hc h1
    exact ⟨⟨p1, p2, fun hp => Nat.lt_of_lt_of_le (h2 hp) p3⟩, p3, p4⟩

theorem raceExec_inv (sched : List Bool) :
    ∀ {s : RaceSt}, RaceInv s → RaceInv (raceExec sched s) ∧
      (∀ v, s.cache = some v → (raceExec sched s).cache = some v) := by
  induction sched with
  | nil => intro s h; exact ⟨h, fun v hv => hv⟩
  | cons t ts ih =>
    intro s h
    obtain ⟨hstep, _, hmono⟩ := raceStep_inv t h
    obtain ⟨hrest, hmono'⟩ := ih hstep
    exact ⟨hrest, fun v hv => hmono' v (hmono v hv)⟩

theorem mem_insertSorted {α : Type} (le : α → α → Bool) (x a : α) :
    ∀ (l : List α), a ∈ insertSorted le x l ↔ a = x ∨ a ∈ l := by
  intro l
  induction l with
  | nil => simp [insertSorted]
  | cons y ys ih =>
    simp only [insertSorted]
    split
    · simp [List.mem_cons]
    · simp only [List.mem_cons, ih]
      tauto

theorem mem_sortBy {α : Type} (le : α → α → Bool) (a : α) :
    ∀ (l : List α), a ∈ sortBy le l ↔ a ∈ l := by
  intro l
  induction l with
  | nil => simp [sortBy]
  | cons x xs ih =>
    simp only [sortBy, mem_insertSorted, ih, List.mem_cons]

theorem pyDictInsert_key_prop (P : String → Prop) {d : List (String × String)}
    {kv : String × String} (hd : ∀ p ∈ d, P p.1) (hkv : P kv.1) :
    ∀ p ∈ pyDictInsert d kv, P p.1 := by
  intro p hp
  unfold pyDictInsert at hp
  split at hp
  · obtain ⟨q, hq, hpq⟩ := List.mem_map.mp hp
    by_cases h : q.1 = kv.1
    · simp only [h, if_pos rfl] at hpq
      rw [← hpq]
      exact h ▸ hkv
    · simp only [if_neg h] at hpq
      rw [← hpq]
      exact hd q hq
  · rcases List.mem_append.mp hp with h | h
    · exact hd p h
    · simp only [List.mem_singleton] at h
      rw [h]
      exact hkv

theorem pyDict_key_prop (P : String → Prop) :
    ∀ (l d : List (String × String)), (∀ p ∈ d, P p.1) →
      (∀ p ∈ l, P p.1) → ∀ p ∈ l.foldl pyDictInsert d, P p.1 := by
  intro l
  induction l with
  | nil => intro d hd _ p hp; exact hd p hp
  | cons x xs ih =>
    intro d hd hl p hp
    exact ih (pyDictInsert d x)
      (pyDictInsert_key_prop P hd (hl x (by simp)))
      (fun q hq => hl q (by simp [hq])) p hp

theorem safe_headers_keys {hdrs : List (String × String)} {p : String × String}
    (hp : p ∈ safe_headers hdrs) :
    pyInLower "token" p.1 = false ∧ pyInLower "secret" p.1 = false := by
  unfold safe_headers at hp
  rw [mem_sortBy] at hp
  refine pyDict_key_prop
    (fun k => pyInLower "token" k = false ∧ pyInLower "secret" k = false)
    _ [] (by simp) ?_ p hp
  intro q hq
  have hfilter := (List.mem_filter.mp hq).2
  simp only [Bool.and_eq_true, Bool.not_eq_true'] at hfilter
  exact hfilter

/-! ## C1 — Resource Cache failure handling -/

/-- C1 counterexample: the claim "if the first computation of the cached
value fails, the failure is raised to the caller, no value is stored, and
a subsequent call re-runs the computation" is false for
`get_warehouse_http_path`.  With a failing `WorkspaceClient()`
construction, the first call raises nothing (it returns `None`), the
`None` return IS stored in the `lru_cache` slot, and the second call
returns the cached `None` without re-running the body (ran-flag `false`). -/
theorem c1_failure_cached_counterexample :
    get_warehouse_http_path_cached none ⟨none, .error (), .ok []⟩ =
      (none, some ((), none), true) ∧
    get_warehouse_http_path_cached (some ((), none)) ⟨none, .error (), .ok []⟩ =
      (none, some ((), none), false) := by
  decide

/-- C1 amended: for `get_connection` the claim holds — a raised
`sql.connect` failure propagates, nothing is stored, and a later call
re-runs the computation and can succeed.  For `get_warehouse_http_path`
failures are swallowed by its blanket `except Exception: pass`: the call
returns `None`, `None` is cached, and every subsequent call returns the
cached `None` without raising and without re-running. -/
theorem c1_failure_handling_amended {C : Type} (p e : String) (conn : C)
    (failConnect okConnect : String → Except String C)
    (hf : failConnect p = .error e) (hs : okConnect p = .ok conn)
    (env : DiscoveryEnv) (henv : get_warehouse_http_path_run env = none) :
    get_connection_cached none failConnect p = (.error e, none, true) ∧
    get_connection_cached
        (get_connection_cached none failConnect p).2.1 okConnect p =
      (.ok conn, some (p, conn), true) ∧
    get_warehouse_http_path_cached none env = (none, some ((), none), true) ∧
    get_warehouse_http_path_cached (some ((), none)) env =
      (none, some ((), none), false) := by
  refine ⟨?_, ?_, ?_, ?_⟩
  · simp [get_connection_cached, lru1CallE, hf]
  · simp [get_connection_cached, lru1CallE, hf, hs]
  · simp [get_warehouse_http_path_cached, lru1Call, henv]
  · rfl

/-- C1 witness: the amended theorem applied at a concrete failing-then-
succeeding connector and a concrete failing discovery environment. -/
theorem c1_failure_handling_witness :
    get_connection_cached (none : Lru1 String Unit)
        (fun _ => .error "boom") "path" = (.error "boom", none, true) ∧
    get_warehouse_http_path_cached (some ((), none))
        ⟨none, .error (), .ok []⟩ = (none, some ((), none), false) := by
  have h := c1_failure_handling_amended "path" "boom" ()
    (fun _ => .error "boom") (fun _ => .ok ()) rfl rfl
    ⟨none, .error (), .ok []⟩ rfl
  exact ⟨h.1, h.2.2.2⟩

/-! ## C2 — Warehouse discovery priority chain -/

/-- C2 counterexample: the claim "if the environment override
DATABRICKS_WAREHOUSE_ID is set, return it unconditionally without
consulting the listing" is false: `w = WorkspaceClient()` runs before the
override is consulted, inside the `try`, so when client construction
raises (e.g. no credentials configured) the function returns `None` even
though the override is set. -/
theorem c2_override_counterexample :
    get_warehouse_http_path_run ⟨some "abc", .error (), .ok []⟩ = none ∧
    get_warehouse_http_path_run ⟨some "abc", .error (), .ok []⟩ ≠
      some "/sql/1.0/warehouses/abc" := by
  decide

/-- C2 amended: provided `WorkspaceClient()` construction succeeds, the
priority chain holds exactly as claimed: a truthy env override is returned
without consulting the listing; else the first serverless-capable
warehouse in listing order; else the first warehouse in RUNNING state;
else the first listed warehouse; else `None`, upon which `run_query`
raises "No SQL warehouse available.".  (A failing listing also yields
`None`.) -/
theorem c2_discovery_chain_amended (env : DiscoveryEnv)
    (hc : env.clientInit = .ok ()) :
    (∀ wid, env.warehouseIdEnv = some wid → wid ≠ "" →
      ∀ l : Except Unit (List Warehouse),
        get_warehouse_http_path_run { env with listing := l } =
          some ("/sql/1.0/warehouses/" ++ wid)) ∧
    (pyTruthyStr env.warehouseIdEnv = false →
      (env.listing = .error () → get_warehouse_http_path_run env = none) ∧
      ∀ ws, env.listing = .ok ws →
        ((∀ wh, ws.find? (fun w => w.enableServerlessCompute) = some wh →
            get_warehouse_http_path_run env =
              some ("/sql/1.0/warehouses/" ++ wh.id)) ∧
         (ws.find? (fun w => w.enableServerlessCompute) = none →
          ∀ wh, ws.find? (fun w => w.state = some "RUNNING") = some wh →
            get_warehouse_http_path_run env =
              some ("/sql/1.0/warehouses/" ++ wh.id)) ∧
         (ws.find? (fun w => w.enableServerlessCompute) = none →
          ws.find? (fun w => w.state = some "RUNNING") = none →
          ∀ wh rest, ws = wh :: rest →
            get_warehouse_http_path_run env =
              some ("/sql/1.0/warehouses/" ++ wh.id)) ∧
         (ws = [] →
            get_warehouse_http_path_run env = none ∧
            run_query_resolve (get_warehouse_http_path_run env) =
              .error "No SQL warehouse available."))) := by
  constructor
  · intro wid hwid hne l
    simp [get_warehouse_http_path_run, hc, hwid, pyTruthyStr, hne]
  · intro hfalsy
    constructor
    · intro herr
      simp [get_warehouse_http_path_run, hc, hfalsy, herr]
    · intro ws hws
      refine ⟨?_, ?_, ?_, ?_⟩
      · intro wh hfind
        obtain ⟨t, ht⟩ := filter_of_find?_some _ hfind
        simp [get_warehouse_http_path_run, hc, hfalsy, hws, ht]
      · intro hn1 wh hfind
        have h1 := filter_of_find?_none _ hn1
        obtain ⟨t, ht⟩ := filter_of_find?_some _ hfind
        simp [get_warehouse_http_path_run, hc, hfalsy, hws, h1, ht]
      · intro hn1 hn2 wh rest hwsval
        have h1 := filter_of_find?_none _ hn1
        have h2 := filter_of_find?_none _ hn2
        subst hwsval
        simp [get_warehouse_http_path_run, hc, hfalsy, hws, h1, h2]
      · intro hempty
        subst hempty
        have hrun : get_warehouse_http_path_run env = none := by
          simp [get_warehouse_http_path_run, hc, hfalsy, hws]
        rw [hrun]
        exact ⟨rfl, rfl⟩

/-- C2 witness: the amended chain evaluated at a concrete override
environment and at a concrete listing whose second warehouse is the first
serverless-capable one. -/
theorem c2_discovery_chain_witness :
    get_warehouse_http_path_run ⟨some "w0", .ok (), .ok []⟩ =
      some "/sql/1.0/warehouses/w0" ∧
    get_warehouse_http_path_run
        ⟨none, .ok (), .ok [⟨"w1", false, none⟩, ⟨"w2", true, none⟩]⟩ =
      some "/sql/1.0/warehouses/w2" := by
  constructor
  · exact (c2_discovery_chain_amended ⟨some "w0", .ok (), .ok []⟩ rfl).1
      "w0" rfl (by decide) (.ok [])
  · exact ((((c2_discovery_chain_amended
        ⟨none, .ok (), .ok [⟨"w1", false, none⟩, ⟨"w2", true, none⟩]⟩ rfl).2
      (by decide)).2 _ rfl).1) ⟨"w2", true, none⟩ (by decide)

/-! ## C6 — Resource Cache permanence -/

/-- C6 counterexample: the claim "once a value has been stored for a key,
every subsequent call with that key returns that identical stored value
without re-running the computation — there is no eviction" is false for
`get_connection`: its `lru_cache(maxsize=1)` holds a single slot, so a
call with a different `http_path` evicts the stored connection, and a
later call with the original key re-runs `sql.connect` and returns a fresh
connection object distinct from the first.  Connections are modelled as
`(path, attempt)` pairs; the third call returns `("A", 2) ≠ ("A", 0)`. -/
theorem c6_eviction_counterexample :
    get_connection_cached none (fun p => .ok (p, 0)) "A" =
      (.ok ("A", 0), some ("A", ("A", 0)), true) ∧
    get_connection_cached (some ("A", ("A", 0))) (fun p => .ok (p, 1)) "B" =
      (.ok ("B", 1), some ("B", ("B", 1)), true) ∧
    get_connection_cached (some ("B", ("B", 1))) (fun p => .ok (p, 2)) "A" =
      (.ok ("A", 2), some ("A", ("A", 2)), true) ∧
    (("A", 2) : String × Nat) ≠ ("A", 0) := by
  decide

/-- C6 amended: as long as every call uses the same key — which is the
case in this program, where `get_connection` is only ever called with the
single cached discovery result and `get_warehouse_http_path` takes no
argument — the claim holds: the computation runs exactly once, its result
is stored, and every subsequent call returns the identical stored value
without re-running, with no TTL or invalidation.  Eviction exists only
when a different key intervenes (see the counterexample). -/
theorem c6_single_key_amended {K V : Type} [DecidableEq K]
    (body : K → Nat → V) (k : K) (ks : List K) (hks : ∀ x ∈ ks, x = k) :
    lru1Trace body (k :: ks) none 0 =
      (body k 0 :: ks.map (fun _ => body k 0), some (k, body k 0), 1) ∧
    (∀ (v : Option String) (env : DiscoveryEnv),
      get_warehouse_http_path_cached (some ((), v)) env =
        (v, some ((), v), false)) := by
  constructor
  · simp [lru1Trace, lru1Trace_hits body k (body k 0) ks 1 hks]
  · intro v env
    rfl

/-- C6 witness: three same-key calls run the body once and all return the
first stored handle. -/
theorem c6_single_key_witness :
    lru1Trace (fun (p : String) (n : Nat) => (p, n)) ["A", "A", "A"] none 0 =
      ([("A", 0), ("A", 0), ("A", 0)], some ("A", ("A", 0)), 1) := by
  exact (c6_single_key_amended (fun (p : String) (n : Nat) => (p, n))
    "A" ["A", "A"] (by decide)).1

/-! ## C9 — Concurrent first calls -/

/-- C9 counterexample: the claim "for every set of concurrent first calls
whose computation succeeds, the underlying computation runs exactly once
and all callers observe that same single value" is false: under the
interleaving in which both threads miss before either stores, the body
runs twice and the two racing callers return different handles (CPython's
`lru_cache` calls the wrapped function without holding its lock, and a
thread that finds the slot filled at insertion time returns its own
result). -/
theorem c9_race_counterexample :
    raceExec [true, false, true, false, true, false] raceInit =
      ⟨⟨.done, 0, some 0⟩, ⟨.done, 1, some 1⟩, some 0, 2⟩ ∧
    (raceExec [true, false, true, false, true, false] raceInit).runs ≠ 1 ∧
    (raceExec [true, false, true, false, true, false] raceInit).t1.result ≠
      (raceExec [true, false, true, false, true, false] raceInit).t2.result := by
  decide

/-- C9 amended: under every interleaving, any value that ends up stored is
the result of an actual body run, the stored value never changes once the
slot is filled (first store wins, later stores are discarded), and every
subsequent call that finds the slot filled returns the stored value
immediately without running the body. -/
theorem c9_race_amended (sched : List Bool) (v : Nat)
    (hv : (raceExec sched raceInit).cache = some v) :
    v < (raceExec sched raceInit).runs ∧
    (∀ sched2 : List Bool,
      (raceExec sched2 (raceExec sched raceInit)).cache = some v) ∧
    (∀ (runs w : Nat), threadStep (some v) runs ⟨.start, w, none⟩ =
      (⟨.done, w, some v⟩, some v, runs)) := by
  have hinit : RaceInv raceInit :=
    ⟨fun v h => by simp [raceInit] at h,
     fun h => by simp [raceInit] at h,
     fun h => by simp [raceInit] at h⟩
  have hinv := (raceExec_inv sched hinit).1
  refine ⟨hinv.1 v hv, ?_, ?_⟩
  · intro sched2
    exact (raceExec_inv sched2 hinv).2 v hv
  · intro runs w
    rfl

/-- C9 witness: the amended theorem applied to the schedule in which
thread 1 completes alone; the stored value survives thread 2's
subsequent steps. -/
theorem c9_race_amended_witness :
    0 < (raceExec [true, true, true] raceInit).runs ∧
    (raceExec [false, false, false]
      (raceExec [true, true, true] raceInit)).cache = some 0 := by
  have h := c9_race_amended [true, true, true] 0 (by decide)
  exact ⟨h.1, h.2.1 [false, false, false]⟩

/-! ## C3 — SQL runner soft row cap -/

/-- C3: in `run_sql`, a statement whose text (after stripping whitespace
and trailing semicolons) does not contain `limit` case-insensitively is
wrapped in an outer `SELECT * FROM (...) _q LIMIT cap` with cap the
requested max-rows (500 when missing), so the backend returns at most cap
rows; a statement already containing a limit substring is passed through
unmodified apart from the whitespace/semicolon trimming. -/
theorem c3_soft_cap (q : String) (cap : Option Nat) (hq : pyStrip q ≠ "") :
    (containsLimit (rstripSemis (pyStrip q)) = false →
      run_sql_statement q cap =
        some ("SELECT * FROM (" ++ rstripSemis (pyStrip q) ++ ") _q LIMIT "
          ++ toString (pyOrNat cap 500)) ∧
      (∀ m, cap = some m → m ≠ 0 → pyOrNat cap 500 = m) ∧
      (cap = none → pyOrNat cap 500 = 500) ∧
      (∀ rows : List (List String),
        (limitRows rows (pyOrNat cap 500)).length ≤ pyOrNat cap 500)) ∧
    (containsLimit (rstripSemis (pyStrip q)) = true →
      run_sql_statement q cap = some (rstripSemis (pyStrip q))) := by
  constructor
  · intro h
    refine ⟨?_, ?_, ?_, ?_⟩
    · simp [run_sql_statement, hq, h]
    · intro m hm hm0
      simp [pyOrNat, hm, hm0]
    · intro hm
      simp [pyOrNat, hm]
    · intro rows
      simp [limitRows]
  · intro h
    simp [run_sql_statement, hq, h]

/-- C3 witness: a statement without a limit clause is wrapped with
`LIMIT 500`; a statement with one passes through trimmed. -/
theorem c3_soft_cap_witness :
    run_sql_statement "SELECT a FROM t;" (some 500) =
      some "SELECT * FROM (SELECT a FROM t) _q LIMIT 500" ∧
    run_sql_statement "SELECT a FROM t LIMIT 10;" none =
      some "SELECT a FROM t LIMIT 10" := by
  constructor
  · exact (((c3_soft_cap "SELECT a FROM t;" (some 500) (by decide)).1
      (by decide)).1).trans (by decide)
  · exact ((c3_soft_cap "SELECT a FROM t LIMIT 10;" none (by decide)).2
      (by decide)).trans (by decide)

/-! ## C4 — Chained selection pipeline -/

/-- C4: clicking a catalog populates the schema list and publishes the
catalog slot while the table list, the detail pane and the descendant
slots are untouched (the downstream callbacks fired by the store change
return an explicit no-update); clicking a schema populates the table list
and the schema slot without altering the catalog list; and a view whose
declared click events did not fire returns an explicit no-update when only
an ancestor store changed. -/
theorem c4_chained_selection (svc : CatalogSvc) (st : CatalogPage) :
    (∀ c ss, svc.listSchemas c = .ok ss →
      catDispatch svc st (.clickCatalog c) =
        { st with schemaList := .listGroup (ss.filter (fun s => s ≠ "")),
                  storeCatalog := some c }) ∧
    (∀ s cat ts, st.storeCatalog = some cat → cat ≠ "" →
      svc.listTables cat s = .ok ts →
      catDispatch svc st (.clickSchema s) =
        { st with tableList := .listGroup (ts.filter (fun x => x ≠ "")),
                  storeSchema := some s }) ∧
    (∀ cat, load_tables svc (some .storeCatalog) cat = (none, none)) ∧
    (∀ cat sch, show_detail svc (some .storeCatalog) cat sch = none) ∧
    (∀ cat sch, show_detail svc (some .storeSchema) cat sch = none) := by
  refine ⟨?_, ?_, ?_, ?_, ?_⟩
  · intro c ss h
    simp [catDispatch, load_schemas, load_tables, show_detail, h,
      applyFrag, applyStore]
  · intro s cat ts h1 h2 h3
    simp [catDispatch, load_tables, show_detail, h1, h3,
      pyTruthyStr, h2, applyFrag, applyStore]
  · intro cat
    simp [load_tables]
  · intro cat sch
    simp [show_detail]
  · intro cat sch
    simp [show_detail]

/-- C4 witness: on a concrete page state, clicking the catalog `samples`
fills the schema column (falsy names filtered) and the catalog slot, and
changes nothing else. -/
theorem c4_chained_selection_witness :
    catDispatch
        ⟨.ok ["samples"], fun _ => .ok ["tpch", ""],
          fun _ _ => .ok ["orders"], fun _ => .error "no"⟩
        ⟨.listGroup ["samples"], .listGroup [], .listGroup [],
          .alert "d" "light", none, none, none⟩
        (.clickCatalog "samples") =
      ⟨.listGroup ["samples"], .listGroup ["tpch"], .listGroup [],
        .alert "d" "light", some "samples", none, none⟩ := by
  exact ((c4_chained_selection
      ⟨.ok ["samples"], fun _ => .ok ["tpch", ""],
        fun _ _ => .ok ["orders"], fun _ => .error "no"⟩
      ⟨.listGroup ["samples"], .listGroup [], .listGroup [],
        .alert "d" "light", none, none, none⟩).1
    "samples" ["tpch", ""] rfl).trans (by decide)

/-! ## C5 — Per-view error boundaries -/

/-- C5: every remote-call-driven view catches any exception raised while
computing its content at its own callback boundary and renders it in place
as `error_alert(str(e))` — a visible alert whose text carries the error
message verbatim — without altering sibling outputs (the store outputs
stay no-update, so no cascade fires) and without escaping the callback
(each modelled callback is a total function into fragments). -/
theorem c5_error_boundary (svc : CatalogSvc) (e : String) :
    (svc.listCatalogs = .error e → load_catalogs svc = error_alert e) ∧
    (∀ c, svc.listSchemas c = .error e →
      load_schemas svc (some c) [1] = (some (error_alert e), none) ∧
      ∀ st : CatalogPage, catDispatch svc st (.clickCatalog c) =
        { st with schemaList := error_alert e }) ∧
    (∀ cat s, cat ≠ "" → svc.listTables cat s = .error e →
      load_tables svc (some (.schemaItem s)) (some cat) =
        (some (error_alert e), none) ∧
      ∀ st : CatalogPage, st.storeCatalog = some cat →
        catDispatch svc st (.clickSchema s) =
          { st with tableList := error_alert e }) ∧
    (∀ cat sch tbl, cat ≠ "" → sch ≠ "" →
      svc.getTable (cat ++ "." ++ sch ++ "." ++ tbl) = .error e →
      show_detail svc (some (.tableItem tbl)) (some cat) (some sch) =
        some (error_alert e)) ∧
    (∀ (execQ : String → Except String DF) q cap stmt,
      run_sql_statement q cap = some stmt → execQ stmt = .error e →
      run_sql execQ q cap = (error_alert e, none)) ∧
    (∀ (execQ : String → Except String DF) (render : DF → Except String Frag)
        years status, execQ (sales_kpi_sql years status) = .error e →
      sales_update_kpis execQ render years status = error_alert e) ∧
    (∀ (execQ : String → Except String DF) (render : DF → Except String Frag)
        years status df, execQ (sales_trend_sql years status) = .ok df →
      render df = .error e →
      sales_update_trend execQ render years status = error_alert e) ∧
    (∀ (execQ : String → Except String DF) (render : DF → Except String Frag)
        years status, execQ (sales_region_sql years status) = .error e →
      sales_update_region execQ render years status = error_alert e) ∧
    (∀ (execQ : String → Except String DF) (render : DF → Except String Frag)
        years status topn,
      execQ (sales_customers_sql years status topn) = .error e →
      sales_update_customers execQ render years status topn = error_alert e) ∧
    (∀ (execQ : String → Except String DF) (render : DF → Except String Frag)
        fare dist, execQ (taxi_kpi_sql fare dist) = .error e →
      taxi_update_kpis execQ render fare dist = error_alert e) ∧
    (∀ (execQ : String → Except String DF) (render : DF → Except String Frag)
        fare dist sample, execQ (taxi_dist_sql fare dist sample) = .error e →
      taxi_update_distributions execQ render fare dist sample =
        error_alert e) ∧
    (∀ (execQ : String → Except String DF) (render : DF → Except String Frag)
        fare dist, execQ (taxi_hourly_sql fare dist) = .error e →
      taxi_update_hourly execQ render fare dist = error_alert e) ∧
    (∀ (execQ : String → Except String DF) (render : DF → Except String Frag)
        fare dist sample,
      execQ (taxi_scatter_sql fare dist sample) = .error e →
      taxi_update_scatter execQ render fare dist sample = error_alert e) ∧
    error_alert e = .alert ("⚠️ " ++ e) "danger" := by
  refine ⟨?_, ?_, ?_, ?_, ?_, ?_, ?_, ?_, ?_, ?_, ?_, ?_, ?_, rfl⟩
  · intro h
    simp [load_catalogs, h]
  · intro c h
    refine ⟨by simp [load_schemas, h], ?_⟩
    intro st
    simp [catDispatch, load_schemas, h, applyFrag, applyStore]
  · intro cat s hcat h
    refine ⟨by simp [load_tables, pyTruthyStr, hcat, h], ?_⟩
    intro st hst
    simp [catDispatch, load_tables, pyTruthyStr, hst, hcat, h,
      applyFrag, applyStore]
  · intro cat sch tbl hcat hsch h
    simp [show_detail, pyTruthyStr, hcat, hsch, h]
  · intro execQ q cap stmt hstmt h
    simp [run_sql, hstmt, h]
  · intro execQ render years status h
    simp [sales_update_kpis, guarded, h, Except.bind]
  · intro execQ render years status df hok h
    simp [sales_update_trend, guarded, hok, h, Except.bind]
  · intro execQ render years status h
    simp [sales_update_region, guarded, h, Except.bind]
  · intro execQ render years status topn h
    simp [sales_update_customers, guarded, h, Except.bind]
  · intro execQ render fare dist h
    simp [taxi_update_kpis, guarded, h, Except.bind]
  · intro execQ render fare dist sample h
    simp [taxi_update_distributions, guarded, h, Except.bind]
  · intro execQ render fare dist h
    simp [taxi_update_hourly, guarded, h, Except.bind]
  · intro execQ render fare dist sample h
    simp [taxi_update_scatter, guarded, h, Except.bind]

/-- C5 witness: a failing catalog service renders its message in the
catalog column, and a failing query backend renders its message in the
SQL-results area with an empty data store. -/
theorem c5_error_boundary_witness :
    load_catalogs ⟨.error "down", fun _ => .error "down",
        fun _ _ => .error "down", fun _ => .error "down"⟩ =
      error_alert "down" ∧
    run_sql (fun _ => .error "down") "SELECT a FROM t" none =
      (error_alert "down", none) := by
  have h := c5_error_boundary
    ⟨.error "down", fun _ => .error "down",
      fun _ _ => .error "down", fun _ => .error "down"⟩ "down"
  exact ⟨h.1 rfl,
    h.2.2.2.2.1 (fun _ => .error "down") "SELECT a FROM t" none _ rfl rfl⟩

/-! ## C7 — Auto-visualization axis restriction -/

/-- C7: whenever the auto-visualization card is built, its Y-axis dropdown
offers exactly the numeric-typed columns of the result set (each offered
column really is numeric-typed in the frame) while the X-axis dropdown
offers all columns; the card exists precisely when at least one numeric
column exists and there are at least two columns; and `run_sql` embeds
this card in its success output. -/
theorem c7_viz_numeric_y (df : DF) :
    (∀ v, viz_section df = some v →
      v.yOptions = numeric_cols df ∧
      v.xOptions = all_cols df ∧
      ∀ y ∈ v.yOptions, ∃ d, (y, d) ∈ df.cols ∧ d.isNumeric = true) ∧
    (viz_section df = none ↔
      (numeric_cols df = [] ∨ (all_cols df).length < 2)) ∧
    (∀ (execQ : String → Except String DF) q cap stmt,
      run_sql_statement q cap = some stmt → execQ stmt = .ok df →
      run_sql execQ q cap =
        (.sqlResults df.nrows (all_cols df) (viz_section df), some df)) := by
  refine ⟨?_, ?_, ?_⟩
  · intro v hv
    unfold viz_section at hv
    split at hv
    · cases hv
      refine ⟨rfl, rfl, ?_⟩
      intro y hy
      simp only [numeric_cols, List.mem_map, List.mem_filter] at hy
      obtain ⟨⟨n, d⟩, ⟨hmem, hnum⟩, hfst⟩ := hy
      exact ⟨d, by rw [← hfst]; exact hmem, hnum⟩
    · cases hv
  · unfold viz_section
    split
    next h =>
      constructor
      · intro habs
        cases habs
      · intro hor
        rcases hor with h1 | h2
        · exact absurd h1 h.1
        · omega
    next h =>
      constructor
      · intro _
        by_contra hcon
        push_neg at hcon
        exact h ⟨hcon.1, hcon.2⟩
      · intro _
        rfl
  · intro execQ q cap stmt hstmt h
    simp [run_sql, hstmt, h]

/-- C7 witness: for a result with an object column `o_orderstatus` and a
numeric column `orders`, only `orders` is offered on the Y axis while both
columns are offered on the X axis, as part of the rendered output. -/
theorem c7_viz_numeric_y_witness :
    (run_sql (fun _ => .ok ⟨[("o_orderstatus", Dtype.object),
        ("orders", Dtype.int64)], 3⟩)
      "SELECT o_orderstatus, COUNT(1) AS orders FROM orders GROUP BY 1"
      none).1 =
    .sqlResults 3 ["o_orderstatus", "orders"]
      (some ⟨["o_orderstatus", "orders"], ["orders"], "o_orderstatus",
        "orders", chartTypes⟩) := by
  have h := (c7_viz_numeric_y ⟨[("o_orderstatus", Dtype.object),
      ("orders", Dtype.int64)], 3⟩).2.2
    (fun _ => .ok ⟨[("o_orderstatus", Dtype.object),
      ("orders", Dtype.int64)], 3⟩)
    "SELECT o_orderstatus, COUNT(1) AS orders FROM orders GROUP BY 1"
    none _ rfl rfl
  exact (congrArg Prod.fst h).trans (by decide)

/-! ## C8 — Identity view without a delegated token -/

/-- C8: when no delegated access token header is present, the identity
view renders the warning alert advising how to enable on-behalf-of-user
authentication, contains no section header at all (in particular neither
the group-membership nor the workspace section) and no error alert; and
missing identity headers render as `n/a` KPI cards.  The same holds
outside a request context (all headers absent). -/
theorem c8_no_token_warning (svc : IdentitySvc)
    (hdrs : List (String × String))
    (htok : pyHeaderGet hdrs "X-Forwarded-Access-Token" = "") :
    Frag.alert oboWarningText "warning" ∈ load_identity svc (some hdrs) ∧
    Frag.header "👥 Group Memberships" ∉ load_identity svc (some hdrs) ∧
    Frag.header "🏢 Workspace" ∉ load_identity svc (some hdrs) ∧
    (∀ t, Frag.header t ∉ load_identity svc (some hdrs)) ∧
    (∀ m, error_alert m ∉ load_identity svc (some hdrs)) ∧
    (pyHeaderGet hdrs "X-Forwarded-Email" = "" →
      pyHeaderGet hdrs "X-Forwarded-Preferred-Username" = "" →
      pyHeaderGet hdrs "X-Real-Ip" = "" →
      Frag.kpiRow "n/a" "n/a" "n/a" ∈ load_identity svc (some hdrs)) ∧
    (Frag.alert oboWarningText "warning" ∈ load_identity svc none ∧
      ∀ m, error_alert m ∉ load_identity svc none) := by
  have hout : load_identity svc (some hdrs) =
      [Frag.kpiRow (pyOrStr (pyHeaderGet hdrs "X-Forwarded-Email") "n/a")
          (pyOrStr (pyHeaderGet hdrs "X-Forwarded-Preferred-Username") "n/a")
          (pyOrStr (pyHeaderGet hdrs "X-Real-Ip") "n/a"),
        .hr, .alert oboWarningText "warning", .hr,
        .rawHeaders (safe_headers hdrs)] := by
    simp [load_identity, htok]
  have hout2 : load_identity svc none =
      [Frag.kpiRow "n/a" "n/a" "n/a", .hr,
        .alert oboWarningText "warning", .hr, .rawHeaders []] := by
    simp [load_identity, pyOrStr]
  refine ⟨?_, ?_, ?_, ?_, ?_, ?_, ?_, ?_⟩
  · rw [hout]; simp
  · rw [hout]; simp
  · rw [hout]; simp
  · intro t; rw [hout]; simp
  · intro m
    rw [hout]
    simp only [error_alert, List.mem_cons, List.mem_singleton]
    intro hmem
    rcases hmem with h | h | h | h | h | h <;> simp_all
  · intro he hu hi
    rw [hout, he, hu, hi]
    simp [pyOrStr]
  · rw [hout2]; simp
  · intro m
    rw [hout2]
    simp only [error_alert, List.mem_cons, List.mem_singleton]
    intro hmem
    rcases hmem with h | h | h | h | h | h <;> simp_all

/-- C8 witness: with only a Host header present, the rendered identity
view contains the on-behalf-of-user warning alert. -/
theorem c8_no_token_warning_witness :
    Frag.alert oboWarningText "warning" ∈
      load_identity
        ⟨fun _ => .error "x", fun _ => .error (), fun _ => .error ()⟩
        (some [("Host", "example.test")]) := by
  exact (c8_no_token_warning
    ⟨fun _ => .error "x", fun _ => .error (), fun _ => .error ()⟩
    [("Host", "example.test")] (by decide)).1

/-! ## C10 — Raw header pane redaction -/

/-- C10: the identity page's raw-header pane lists only headers whose
names contain neither `token` nor `secret` case-insensitively; in
particular no pair named `X-Forwarded-Access-Token` ever appears in it,
for every request; and the pane rendered by `load_identity` is exactly the
filtered, deduplicated, sorted header list. -/
theorem c10_header_redaction (svc : IdentitySvc)
    (hdrs : List (String × String)) :
    (∀ k v, (k, v) ∈ safe_headers hdrs →
      pyInLower "token" k = false ∧ pyInLower "secret" k = false) ∧
    (∀ v, ("X-Forwarded-Access-Token", v) ∉ safe_headers hdrs) ∧
    Frag.rawHeaders (safe_headers hdrs) ∈ load_identity svc (some hdrs) := by
  refine ⟨?_, ?_, ?_⟩
  · intro k v hkv
    exact safe_headers_keys hkv
  · intro v hmem
    have h := (safe_headers_keys hmem).1
    have htrue : pyInLower "token" "X-Forwarded-Access-Token" = true := by
      decide
    rw [htrue] at h
    cases h
  · simp [load_identity]

/-- C10 witness: a request carrying the delegated token header renders a
pane containing only the Host header; the token pair is absent. -/
theorem c10_header_redaction_witness :
    ("X-Forwarded-Access-Token", "tok123") ∉
      safe_headers [("Host", "h"), ("X-Forwarded-Access-Token", "tok123")] ∧
    Frag.rawHeaders [("Host", "h")] ∈
      load_identity
        ⟨fun _ => .error "x", fun _ => .error (), fun _ => .error ()⟩
        (some [("Host", "h"), ("X-Forwarded-Access-Token", "tok123")]) := by
  have h := c10_header_redaction
    ⟨fun _ => .error "x", fun _ => .error (), fun _ => .error ()⟩
    [("Host", "h"), ("X-Forwarded-Access-Token", "tok123")]
  refine ⟨h.2.1 "tok123", ?_⟩
  have h3 := h.2.2
  rwa [show safe_headers
      [("Host", "h"), ("X-Forwarded-Access-Token", "tok123")] =
      [("Host", "h")] from by decide] at h3

end DashSpec
